import Mathlib

/-!
Verification of the `binance.js` REST client core (`src/rest-client.ts`,
`src/utils.ts`, `src/errors.ts`, `src/models.ts`).

The development shallowly embeds the request-dispatch and signing pipeline:

* `getHmac` embeds `utils.getHmac` on top of a byte-level SHA-256 / HMAC
  implementation (the Node `crypto.createHmac` call keyed on `Buffer(secret)`).
* `qstringify` embeds the Node `querystring.stringify` on ordered key/value
  mappings (JS object insertion order).
* `http` embeds `RestClient.http`, with the transport (`axios.request`)
  passed in as a function and `Date.now()` passed as an explicit argument.
  JS object mutation of the caller-supplied `options` object is made explicit:
  the dispatch result records the post-call state of that object.
* `createRestClient` embeds the constructor call `Object.assign(AXIOS_DEFAULTS,
  options.axiosOptions || {})`, with the module-level mutable default object
  threaded as explicit state.
-/

set_option maxRecDepth 100000

namespace Binance

/-! ## Byte-level SHA-256 (FIPS 180-4), HMAC (RFC 2104), hex rendering.

Bytes are `Nat` values below 256; 32-bit words are `Nat` values reduced
modulo `2 ^ 32` by `w32`. -/

/-- Reduce to a 32-bit word. -/
def w32 (n : Nat) : Nat := n % 4294967296

/-- Right-rotate a 32-bit word by `k` bits. -/
def rotr (k x : Nat) : Nat := w32 ((x >>> k) ||| (x <<< (32 - k)))

/-- Bitwise complement on 32 bits. -/
def not32 (x : Nat) : Nat := x ^^^ 4294967295

def ch (x y z : Nat) : Nat := (x &&& y) ^^^ (not32 x &&& z)

def maj (x y z : Nat) : Nat := (x &&& y) ^^^ (x &&& z) ^^^ (y &&& z)

def bigSigma0 (x : Nat) : Nat := rotr 2 x ^^^ rotr 13 x ^^^ rotr 22 x

def bigSigma1 (x : Nat) : Nat := rotr 6 x ^^^ rotr 11 x ^^^ rotr 25 x

def smallSigma0 (x : Nat) : Nat := rotr 7 x ^^^ rotr 18 x ^^^ (x >>> 3)

def smallSigma1 (x : Nat) : Nat := rotr 17 x ^^^ rotr 19 x ^^^ (x >>> 10)

/-- The SHA-256 round constants (decimal rendering of the FIPS 180-4 table). -/
def sha256K : List Nat :=
  [1116352408, 1899447441, 3049323471, 3921009573, 961987163,
   1508970993, 2453635748, 2870763221, 3624381080, 310598401,
   607225278, 1426881987, 1925078388, 2162078206, 2614888103,
   3248222580, 3835390401, 4022224774, 264347078, 604807628,
   770255983, 1249150122, 1555081692, 1996064986, 2554220882,
   2821834349, 2952996808, 3210313671, 3336571891, 3584528711,
   113926993, 338241895, 666307205, 773529912, 1294757372,
   1396182291, 1695183700, 1986661051, 2177026350, 2456956037,
   2730485921, 2820302411, 3259730800, 3345764771, 3516065817,
   3600352804, 4094571909, 275423344, 430227734, 506948616,
   659060556, 883997877, 958139571, 1322822218, 1537002063,
   1747873779, 1955562222, 2024104815, 2227730452, 2361852424,
   2428436474, 2756734187, 3204031479, 3329325298]

/-- SHA-256 working state: eight 32-bit words. -/
structure Hash8 where
  a : Nat
  b : Nat
  c : Nat
  d : Nat
  e : Nat
  f : Nat
  g : Nat
  h : Nat

/-- The SHA-256 initial hash value (decimal rendering). -/
def sha256H0 : Hash8 :=
  ⟨1779033703, 3144134277, 1013904242, 2773480762,
   1359893119, 2600822924, 528734635, 1541459225⟩

/-- Big-endian 4-byte rendering of a 32-bit word. -/
def be32 (n : Nat) : List Nat :=
  [n / 16777216 % 256, n / 65536 % 256, n / 256 % 256, n % 256]

/-- Big-endian 8-byte rendering of a 64-bit length value. -/
def be64 (n : Nat) : List Nat :=
  [n / 72057594037927936 % 256, n / 281474976710656 % 256,
   n / 1099511627776 % 256, n / 4294967296 % 256,
   n / 16777216 % 256, n / 65536 % 256, n / 256 % 256, n % 256]

/-- Serialize the eight state words, big-endian, into 32 bytes. -/
def Hash8.toBytes (s : Hash8) : List Nat :=
  be32 s.a ++ be32 s.b ++ be32 s.c ++ be32 s.d ++
  be32 s.e ++ be32 s.f ++ be32 s.g ++ be32 s.h

/-- SHA-256 message padding: append `0x80`, zeros to 56 mod 64, then the
bit length as a big-endian 64-bit value. -/
def padMessage (msg : List Nat) : List Nat :=
  let z : Nat := (120 - (msg.length + 1) % 64) % 64
  msg ++ [128] ++ List.replicate z 0 ++ be64 (8 * msg.length)

/-- Split a byte list into 64-byte blocks (structural recursion on a fuel
bound so the kernel can evaluate it; `l.length` is always enough fuel). -/
def toBlocksFuel : Nat → List Nat → List (List Nat)
  | 0, _ => []
  | Nat.succ fuel, l => if l = [] then [] else l.take 64 :: toBlocksFuel fuel (l.drop 64)

/-- Split a byte list into 64-byte blocks. -/
def toBlocks (l : List Nat) : List (List Nat) := toBlocksFuel l.length l

/-- Read the `i`-th big-endian 32-bit word out of a 64-byte block. -/
def be32Word (block : List Nat) (i : Nat) : Nat :=
  block.getD (4 * i) 0 * 16777216 + block.getD (4 * i + 1) 0 * 65536 +
  block.getD (4 * i + 2) 0 * 256 + block.getD (4 * i + 3) 0

/-- One message-schedule extension step: append `W[i]` for `i = w.length`. -/
def scheduleStep (w : List Nat) : List Nat :=
  let i := w.length
  w ++ [w32 (smallSigma1 (w.getD (i - 2) 0) + w.getD (i - 7) 0 +
             smallSigma0 (w.getD (i - 15) 0) + w.getD (i - 16) 0)]

/-- The 64-entry message schedule of a block. -/
def fullSchedule (block : List Nat) : List Nat :=
  (List.range 48).foldl (fun w _ => scheduleStep w) ((List.range 16).map (be32Word block))

/-- One SHA-256 compression round, fed a `(K[i], W[i])` pair. -/
def roundStep (st : Hash8) (kw : Nat × Nat) : Hash8 :=
  let t1 := w32 (st.h + bigSigma1 st.e + ch st.e st.f st.g + kw.1 + kw.2)
  let t2 := w32 (bigSigma0 st.a + maj st.a st.b st.c)
  ⟨w32 (t1 + t2), st.a, st.b, st.c, w32 (st.d + t1), st.e, st.f, st.g⟩

/-- Compress one 64-byte block into the running state. -/
def compressBlock (st : Hash8) (block : List Nat) : Hash8 :=
  let fin := ((sha256K.zip (fullSchedule block)).foldl roundStep st)
  ⟨w32 (st.a + fin.a), w32 (st.b + fin.b), w32 (st.c + fin.c), w32 (st.d + fin.d),
   w32 (st.e + fin.e), w32 (st.f + fin.f), w32 (st.g + fin.g), w32 (st.h + fin.h)⟩

/-- SHA-256 of a byte list, as a 32-byte list. -/
def sha256 (msg : List Nat) : List Nat :=
  ((toBlocks (padMessage msg)).foldl compressBlock sha256H0).toBytes

/-- HMAC-SHA256 (RFC 2104): the key is used as raw bytes, hashed first only
when longer than the 64-byte block size, then zero-padded to 64 bytes. -/
def hmacSha256 (key msg : List Nat) : List Nat :=
  let k1 := if 64 < key.length then sha256 key else key
  let k2 := k1 ++ List.replicate (64 - k1.length) 0
  sha256 ((k2.map (fun b => b ^^^ 92)) ++ sha256 ((k2.map (fun b => b ^^^ 54)) ++ msg))

/-- UTF-8 bytes of one character. -/
def utf8Bytes (c : Char) : List Nat :=
  let n := c.toNat
  if n < 128 then [n]
  else if n < 2048 then [192 + n / 64, 128 + n % 64]
  else if n < 65536 then [224 + n / 4096, 128 + n / 64 % 64, 128 + n % 64]
  else [240 + n / 262144, 128 + n / 4096 % 64, 128 + n / 64 % 64, 128 + n % 64]

/-- UTF-8 bytes of a string (what `Buffer(s)` / `hmac.update(s)` hash). -/
def strBytes (s : String) : List Nat :=
  s.toList.foldr (fun c acc => utf8Bytes c ++ acc) []

/-- Lowercase hex digit for a nibble. -/
def hexDigitLower (n : Nat) : Char :=
  if n < 10 then Char.ofNat (48 + n) else Char.ofNat (87 + n)

/-- Two lowercase hex digits for a byte. -/
def hexByteLower (b : Nat) : List Char :=
  [hexDigitLower (b / 16 % 16), hexDigitLower (b % 16)]

/-- Lowercase hex string of a byte list (the Node hex digest rendering). -/
def bytesToHexLower (l : List Nat) : String :=
  ⟨l.foldr (fun b acc => hexByteLower b ++ acc) []⟩

/-- Embeds `utils.getHmac` (src/utils.ts): a SHA-256 HMAC keyed on
`new Buffer(apisecret)`, updated with `input`, rendered as a hex digest —
the secret is the raw
key bytes (no further encoding), the input is the message, and the digest is
rendered as lowercase hex. -/
def getHmac (input : String) (apisecret : String) : String :=
  bytesToHexLower (hmacSha256 (strBytes apisecret) (strBytes input))

/-- Sanity vector (checked against an independent HMAC-SHA256
implementation): key `"Jefe"`, message `"what do ya wanna do for nothing?"`. -/
theorem getHmac_vector :
    getHmac "what do ya wanna do for nothing?" "Jefe" =
      "80d0e16f822220059aaedcf4874d395893f3d59e46af2f6b9ec075478a3716ca" := by
  decide

/-! ## JS objects as ordered key/value mappings

JS objects iterate string keys in insertion order; property assignment
updates an existing key in place or appends a new one. -/

/-- JS property assignment `m[k] = v` on an ordered mapping. -/
def setKey {α : Type} (m : List (String × α)) (k : String) (v : α) :
    List (String × α) :=
  if m.any (fun kv => kv.1 = k) then
    m.map (fun kv => if kv.1 = k then (k, v) else kv)
  else m ++ [(k, v)]

/-- JS property read `m[k]`. -/
def getKey {α : Type} (m : List (String × α)) (k : String) : Option α :=
  (m.find? (fun kv => kv.1 = k)).map (fun kv => kv.2)

/-- Embeds `Object.assign(target, src)`: copy the properties of `src` onto
`target` in `src` iteration order, returning the mutated target. -/
def objAssign {α : Type} (target src : List (String × α)) :
    List (String × α) :=
  src.foldl (fun acc kv => setKey acc kv.1 kv.2) target

/-- JS values appearing in request parameter mappings: strings and numbers
(`Date.now()` is an integer number of milliseconds). -/
inductive PValue
  | str (s : String)
  | num (n : Int)
deriving DecidableEq

/-- An ordered request-parameter mapping. -/
abbrev Params := List (String × PValue)

/-- An ordered header mapping. -/
abbrev Headers := List (String × String)

/-! ## `querystring.stringify` -/

/-- Characters the Node `querystring.escape` leaves unescaped:
`A-Z a-z 0-9 - . _ ~ ! * ( )` and the apostrophe (codepoint 39). -/
def qsKeep (c : Char) : Bool :=
  (48 ≤ c.toNat && c.toNat ≤ 57) || (65 ≤ c.toNat && c.toNat ≤ 90) ||
  (97 ≤ c.toNat && c.toNat ≤ 122) ||
  c.toNat = 45 || c.toNat = 46 || c.toNat = 95 || c.toNat = 126 ||
  c.toNat = 33 || c.toNat = 39 || c.toNat = 40 || c.toNat = 41 || c.toNat = 42

/-- Uppercase hex digit for a nibble. -/
def hexDigitUpper (n : Nat) : Char :=
  if n < 10 then Char.ofNat (48 + n) else Char.ofNat (55 + n)

/-- Percent-encode one byte, uppercase, e.g. `%2F`. -/
def percentByte (b : Nat) : List Char :=
  [Char.ofNat 37, hexDigitUpper (b / 16 % 16), hexDigitUpper (b % 16)]

/-- Embeds `querystring.escape`: keep unreserved characters, percent-encode the
UTF-8 bytes of everything else. -/
def qsEscape (s : String) : String :=
  ⟨s.toList.foldr
    (fun c acc =>
      if qsKeep c then c :: acc
      else (utf8Bytes c).foldr (fun b acc2 => percentByte b ++ acc2) acc) []⟩

/-- How `querystring.stringify` renders a primitive value. -/
def PValue.render : PValue → String
  | PValue.str s => s
  | PValue.num n => toString n

/-- One `key=value` pair of a querystring, both sides escaped. -/
def qsPair (kv : String × PValue) : String :=
  qsEscape kv.1 ++ "=" ++ qsEscape kv.2.render

/-- Embeds `querystring.stringify`: `k=v` pairs joined with `&`, both sides
escaped, in the iteration order of the mapping. -/
def qstringify : Params → String
  | [] => ""
  | [kv] => qsPair kv
  | kv :: rest => qsPair kv ++ "&" ++ qstringify rest

/-! ## Data model (src/models.ts) -/

/-- HTTP methods accepted by `Endpoint.method`. -/
inductive Method
  | GET
  | PUT
  | POST
  | PATCH
  | OPTIONS
  | DELETE
deriving DecidableEq

/-- The `EndpointSecurity` union: `NONE`, `API-KEY` or `SIGNED`. -/
inductive Security
  | NONE
  | APIKEY
  | SIGNED
deriving DecidableEq

/-- How a `Security` value prints inside template strings (the TS values
are the literal strings `NONE`, `API-KEY`, `SIGNED`). -/
def Security.render : Security → String
  | Security.NONE => "NONE"
  | Security.APIKEY => "API-KEY"
  | Security.SIGNED => "SIGNED"

/-- An endpoint descriptor (`models.Endpoint`). -/
structure Endpoint where
  url : String
  method : Option Method := none
  security : Security
deriving DecidableEq

/-- The `RestClientOptions` record: construction-time credentials (the axios overrides
are modelled separately, see `createRestClient`). -/
structure RestClientOptions where
  apikey : Option String := none
  apisecret : Option String := none
deriving DecidableEq

/-- JS truthiness test used by `if (!this.options.apikey)`: an optional
string is falsy when absent or empty. -/
def falsyOpt : Option String → Bool
  | none => true
  | some s => s.isEmpty

/-- The value held by an axios `data` field: the caller supplies an object,
the dispatcher overwrites it with a querystring-encoded string. -/
inductive DataVal
  | obj (p : Params)
  | str (s : String)
deriving DecidableEq

/-- The caller-supplied `AxiosRequestConfig` object, restricted to the
fields the dispatcher reads or writes. `RestClient.http` mutates this
object in place; the model tracks its state explicitly. -/
structure OptionsState where
  headers : Option Headers := none
  params : Option Params := none
  data : Option DataVal := none
  url : Option String := none
  method : Option Method := none
  validateStatusAll : Bool := false
deriving DecidableEq

/-- What the transport (`axios.request`) produces: either a connection-level
failure (the promise rejects: timeout, ECONNREFUSED, DNS failure, ...)
carrying its cause, or a completed HTTP exchange. Because the dispatcher
sets `validateStatus: () => true`, every received status resolves as a
response here. -/
inductive TransportResult (β : Type)
  | failure (cause : String)
  | response (status : Nat) (statusText : String) (body : β)
deriving DecidableEq

/-- The outcome of one dispatch: the resolved `AxiosResponse` or one of the
typed errors of src/errors.ts. -/
inductive Outcome (β : Type)
  | success (status : Nat) (statusText : String) (body : β)
  | missingCredentials (msg : String)
  | httpError (cause : String)
  | malformedRequest (body : β) (statusText : String) (status : Nat)
  | requestResultUnknown (body : β) (statusText : String) (status : Nat)
  | internalRequest (body : β) (statusText : String) (status : Nat)
deriving DecidableEq

/-- The wire request handed to the transport: URL, headers, method and the
working parameter mapping (sent as query parameters for GET, as the
querystring-encoded body otherwise). -/
structure HttpRequest where
  url : String
  headers : Headers
  method : Method
  inputs : Params
deriving DecidableEq

/-- The `params` field handed to axios (GET only). -/
def HttpRequest.queryParams (r : HttpRequest) : Option Params :=
  if r.method = Method.GET then some r.inputs else none

/-- The `data` field handed to axios (non-GET only): the working mapping
serialized by `querystring.stringify`. -/
def HttpRequest.bodyData (r : HttpRequest) : Option String :=
  if r.method = Method.GET then none else some (qstringify r.inputs)

/-- Everything observable about one `RestClient.http` call: its outcome,
the requests given to the transport (empty when a credential check throws
first), and the post-call state of the caller-supplied options object. -/
structure DispatchOutput (β : Type) where
  outcome : Outcome β
  sent : List HttpRequest
  post : OptionsState
deriving DecidableEq

/-! ## The dispatcher (`RestClient.http`) -/

/-- Embeds the method resolution `endpoint.method || GET`. -/
def resolvedMethod (endpoint : Endpoint) : Method :=
  endpoint.method.getD Method.GET

/-- The `Object.assign` staging copy (onto a fresh empty object) of the caller parameters:
query parameters for GET, body parameters otherwise (`{}` when absent). -/
def stagedInputs (endpoint : Endpoint) (options : OptionsState) : Params :=
  if resolvedMethod endpoint = Method.GET then options.params.getD []
  else match options.data with
    | some (DataVal.obj p) => p
    | _ => []

/-- The message of a `MissingCredentialsError`, e.g.
`SIGNED HTTP endpoints require opts.apikey to be provided`. -/
def credMsg (security : Security) (field : String) : String :=
  security.render ++ " HTTP endpoints require opts." ++ field ++ " to be provided"

/-- The header mapping of the outgoing request: the caller-supplied headers
object (or `{}`), with `X-MBX-APIKEY` assigned for non-`NONE` tiers. -/
def finalHeaders (client : RestClientOptions) (endpoint : Endpoint)
    (options : OptionsState) : Headers :=
  let headers0 := options.headers.getD []
  if endpoint.security ≠ Security.NONE then
    setKey headers0 "X-MBX-APIKEY" (client.apikey.getD "")
  else headers0

/-- The SIGNED-tier augmentation: assign `timestamp = Date.now()`, then
assign `signature = getHmac(qstringify(inputs), apisecret)` — computed over
the serialization *before* the signature key exists. -/
def signInputs (inputs : Params) (now : Int) (secret : String) : Params :=
  let withTs := setKey inputs "timestamp" (PValue.num now)
  setKey withTs "signature" (PValue.str (getHmac (qstringify withTs) secret))

/-- The working parameter mapping actually transmitted. -/
def finalInputs (client : RestClientOptions) (endpoint : Endpoint)
    (options : OptionsState) (now : Int) : Params :=
  if endpoint.security = Security.SIGNED then
    signInputs (stagedInputs endpoint options) now (client.apisecret.getD "")
  else stagedInputs endpoint options

/-- Embeds `url-join` on a base with no trailing slash and endpoint paths with one
leading slash: exactly one separating slash. -/
def urljoin (base part : String) : String :=
  base ++ (if part.toList.head? = some (Char.ofNat 47) then part else "/" ++ part)

/-- The request built by a dispatch whose credential checks pass. -/
def builtRequest (client : RestClientOptions) (endpoint : Endpoint)
    (options : OptionsState) (now : Int) : HttpRequest :=
  ⟨urljoin "https://api.binance.com/api" endpoint.url,
   finalHeaders client endpoint options,
   resolvedMethod endpoint,
   finalInputs client endpoint options now⟩

/-- The status classification at the end of `RestClient.http`, checked in
source order: 400–499, then exactly 504, then 500–599, else the response is
returned as-is. -/
def classify {β : Type} (status : Nat) (statusText : String) (body : β) :
    Outcome β :=
  if 400 ≤ status ∧ status ≤ 499 then
    Outcome.malformedRequest body statusText status
  else if status = 504 then
    Outcome.requestResultUnknown body statusText status
  else if 500 ≤ status ∧ status ≤ 599 then
    Outcome.internalRequest body statusText status
  else Outcome.success status statusText body

/-- Embeds `RestClient.http`. `now` is the value `Date.now()` returns during
the call; `transport` is `axios.request`. The post-call options states mirror
the in-place mutations of the source: `delete options.data; delete options.params`
happen before the credential checks, the API-key header is written into the
caller-supplied headers object (when present) before the apisecret check,
and `Object.assign(options, {url, headers, method, validateStatus})` plus the
`params`/`data` overwrite happen before transmission. -/
def http {β : Type} (client : RestClientOptions) (endpoint : Endpoint)
    (options : OptionsState) (now : Int)
    (transport : HttpRequest → TransportResult β) : DispatchOutput β :=
  let opts1 : OptionsState := { options with data := none, params := none }
  if endpoint.security ≠ Security.NONE ∧ falsyOpt client.apikey then
    ⟨Outcome.missingCredentials (credMsg endpoint.security "apikey"), [], opts1⟩
  else
    let opts2 :=
      if options.headers.isSome then
        { opts1 with headers := some (finalHeaders client endpoint options) }
      else opts1
    if endpoint.security = Security.SIGNED ∧ falsyOpt client.apisecret then
      ⟨Outcome.missingCredentials (credMsg endpoint.security "apisecret"), [], opts2⟩
    else
      let req := builtRequest client endpoint options now
      let opts3 : OptionsState :=
        { opts2 with url := some req.url, headers := some req.headers,
                     method := some req.method, validateStatusAll := true }
      let opts4 :=
        if req.method = Method.GET then { opts3 with params := some req.inputs }
        else { opts3 with data := some (DataVal.str (qstringify req.inputs)) }
      match transport req with
      | TransportResult.failure cause =>
          ⟨Outcome.httpError cause, [req], opts4⟩
      | TransportResult.response st stText body =>
          ⟨classify st stText body, [req], opts4⟩

/-! ## Construction (`RestClient.constructor`) and the shared axios defaults -/

/-- The module-level `AXIOS_DEFAULTS` object as initialized. Numeric-valued
axios options suffice for the modelled configuration (`timeout`). -/
def AXIOS_DEFAULTS : List (String × Int) := [("timeout", 15000)]

/-- The mutable module state: the current contents of the shared
`AXIOS_DEFAULTS` object. -/
structure ModuleState where
  axiosDefaults : List (String × Int)
deriving DecidableEq

/-- Module state at load time. -/
def initialModuleState : ModuleState := ⟨AXIOS_DEFAULTS⟩

/-- Embeds the constructor merge
`axios.create(Object.assign(AXIOS_DEFAULTS, options.axiosOptions || {}))`:
returns the effective per-instance configuration handed to `axios.create`
together with the module state left behind — `Object.assign` mutates its
first argument, so the shared defaults object becomes the merged object. -/
def createRestClient (st : ModuleState) (axiosOptions : Option (List (String × Int))) :
    List (String × Int) × ModuleState :=
  let merged := objAssign st.axiosDefaults (axiosOptions.getD [])
  (merged, ⟨merged⟩)

/-! ## The order-book endpoint (`RestClient.getOrderBook`) -/

/-- One reshaped order-book level. -/
structure OrderBookEntry where
  price : String
  quantity : String
deriving DecidableEq

/-- The raw `/v1/depth` payload: `lastUpdateId` plus `[price, quantity]`
string pairs. -/
structure OrderBookRaw where
  lastUpdateId : Int
  bids : List (String × String)
  asks : List (String × String)
deriving DecidableEq

/-- The reshaped order book returned to the caller. -/
structure OrderBook where
  lastUpdateId : Int
  bids : List OrderBookEntry
  asks : List OrderBookEntry
deriving DecidableEq

/-- The reshaping at the end of `getOrderBook`: keep `lastUpdateId`, map
each `[price, quantity]` entry of `bids` and `asks` to a record. -/
def reshapeOrderBook (r : OrderBookRaw) : OrderBook :=
  { lastUpdateId := r.lastUpdateId,
    bids := r.bids.map (fun entry => ⟨entry.1, entry.2⟩),
    asks := r.asks.map (fun entry => ⟨entry.1, entry.2⟩) }

/-- The endpoint table entries used by the modelled methods. -/
def ENDPOINTS_ORDERBOOK : Endpoint := ⟨"/v1/depth", none, Security.NONE⟩

def ENDPOINTS_PING : Endpoint := ⟨"/v1/ping", none, Security.NONE⟩

def ENDPOINTS_ORDER : Endpoint := ⟨"/v3/order", some Method.POST, Security.SIGNED⟩

/-- Embeds `RestClient.getOrderBook`: dispatch `/v1/depth` with
`{symbol, limit}` as query parameters and reshape a successful body.
`none` models the thrown-error paths. -/
def getOrderBook (client : RestClientOptions) (symbol : String)
    (limit : Option Int) (now : Int)
    (transport : HttpRequest → TransportResult OrderBookRaw) : Option OrderBook :=
  let options : OptionsState :=
    { params := some ([("symbol", PValue.str symbol)] ++
        (match limit with
         | some l => [("limit", PValue.num l)]
         | none => [])) }
  match (http client ENDPOINTS_ORDERBOOK options now transport).outcome with
  | Outcome.success _ _ body => some (reshapeOrderBook body)
  | _ => none

/-! ## Helper lemmas -/

theorem strAppend_assoc (a b c : String) : a ++ b ++ c = a ++ (b ++ c) := by
  cases a with
  | mk la =>
  cases b with
  | mk lb =>
  cases c with
  | mk lc =>
  show String.mk (la ++ lb ++ lc) = String.mk (la ++ (lb ++ lc))
  rw [List.append_assoc]

theorem Hash8.toBytes_length (s : Hash8) : s.toBytes.length = 32 := by
  simp [Hash8.toBytes, be32]

theorem sha256_length (msg : List Nat) : (sha256 msg).length = 32 := by
  unfold sha256
  exact Hash8.toBytes_length _

theorem hmacSha256_length (key msg : List Nat) : (hmacSha256 key msg).length = 32 := by
  unfold hmacSha256
  exact sha256_length _

theorem bytesToHexLower_length (l : List Nat) :
    (bytesToHexLower l).length = 2 * l.length := by
  unfold bytesToHexLower
  show (l.foldr (fun b acc => hexByteLower b ++ acc) []).length = 2 * l.length
  induction l with
  | nil => rfl
  | cons b rest ih =>
    simp only [List.foldr_cons, List.length_append, ih, List.length_cons]
    simp only [hexByteLower, List.length_cons, List.length_nil]
    omega

/-- The character class of a lowercase hex rendering. -/
def isLowerHexDigit (c : Char) : Bool :=
  (48 ≤ c.toNat && c.toNat ≤ 57) || (97 ≤ c.toNat && c.toNat ≤ 102)

theorem hexDigitLower_isLower : ∀ n < 16, isLowerHexDigit (hexDigitLower n) = true := by
  decide

theorem hexByteLower_isLower (b : Nat) :
    ∀ c ∈ hexByteLower b, isLowerHexDigit c = true := by
  intro c hc
  have h1 : b / 16 % 16 < 16 := Nat.mod_lt _ (by omega)
  have h2 : b % 16 < 16 := Nat.mod_lt _ (by omega)
  simp only [hexByteLower, List.mem_cons, List.mem_singleton] at hc
  rcases hc with h | h | h
  · rw [h]; exact hexDigitLower_isLower _ h1
  · rw [h]; exact hexDigitLower_isLower _ h2
  · cases h

theorem bytesToHexLower_isLower (l : List Nat) :
    (bytesToHexLower l).toList.all isLowerHexDigit = true := by
  unfold bytesToHexLower
  show (l.foldr (fun b acc => hexByteLower b ++ acc) []).all isLowerHexDigit = true
  induction l with
  | nil => rfl
  | cons b rest ih =>
    simp only [List.foldr_cons, List.all_append, ih, Bool.and_true, List.all_eq_true]
    exact hexByteLower_isLower b

theorem setKey_of_fresh {α : Type} (m : List (String × α)) (k : String) (v : α)
    (h : m.any (fun kv => kv.1 = k) = false) : setKey m k v = m ++ [(k, v)] := by
  unfold setKey
  rw [h]
  simp

theorem getKey_cons_eq {α : Type} (a : String × α) (rest : List (String × α))
    (k : String) (ha : a.1 = k) : getKey (a :: rest) k = some a.2 := by
  unfold getKey
  rw [List.find?_cons_of_pos _ (by simp [ha])]
  rfl

theorem getKey_cons_ne {α : Type} (a : String × α) (rest : List (String × α))
    (k : String) (ha : ¬a.1 = k) : getKey (a :: rest) k = getKey rest k := by
  unfold getKey
  rw [List.find?_cons_of_neg _ (by simp [ha])]

theorem getKey_map_overwrite {α : Type} (m : List (String × α)) (k : String) (v : α)
    (h : m.any (fun kv => kv.1 = k) = true) :
    getKey (m.map (fun kv => if kv.1 = k then (k, v) else kv)) k = some v := by
  induction m with
  | nil => cases h
  | cons a rest ih =>
    simp only [List.map_cons]
    by_cases ha : a.1 = k
    · rw [if_pos ha]
      exact getKey_cons_eq _ _ _ rfl
    · rw [if_neg ha, getKey_cons_ne _ _ _ ha]
      apply ih
      simp only [List.any_cons, Bool.or_eq_true] at h
      rcases h with h | h
      · exact absurd (by simpa using h) ha
      · exact h

theorem getKey_append_single_self {α : Type} (m : List (String × α)) (k : String)
    (v : α) (h : m.any (fun kv => kv.1 = k) = false) :
    getKey (m ++ [(k, v)]) k = some v := by
  induction m with
  | nil => exact getKey_cons_eq _ _ _ rfl
  | cons a rest ih =>
    simp only [List.any_cons, Bool.or_eq_false_iff] at h
    rw [List.cons_append, getKey_cons_ne _ _ _ (by simpa using h.1)]
    exact ih h.2

theorem getKey_setKey_self {α : Type} (m : List (String × α)) (k : String) (v : α) :
    getKey (setKey m k v) k = some v := by
  unfold setKey
  split
  case isTrue h => exact getKey_map_overwrite m k v h
  case isFalse h =>
    exact getKey_append_single_self m k v (by simp only [Bool.not_eq_true] at h; exact h)

theorem getKey_map_ne {α : Type} (m : List (String × α)) (k k2 : String) (v : α)
    (h : k ≠ k2) :
    getKey (m.map (fun kv => if kv.1 = k2 then (k2, v) else kv)) k = getKey m k := by
  induction m with
  | nil => rfl
  | cons a rest ih =>
    simp only [List.map_cons]
    by_cases ha : a.1 = k2
    · rw [if_pos ha, getKey_cons_ne (k2, v) _ k (by simpa using Ne.symm h),
          getKey_cons_ne a rest k (by rw [ha]; exact Ne.symm h)]
      exact ih
    · rw [if_neg ha]
      by_cases hak : a.1 = k
      · rw [getKey_cons_eq _ _ _ hak, getKey_cons_eq _ _ _ hak]
      · rw [getKey_cons_ne _ _ _ hak, getKey_cons_ne _ _ _ hak]
        exact ih

theorem getKey_append_single_ne {α : Type} (m : List (String × α)) (k k2 : String)
    (v : α) (h : k ≠ k2) : getKey (m ++ [(k2, v)]) k = getKey m k := by
  induction m with
  | nil =>
    rw [List.nil_append, getKey_cons_ne (k2, v) [] k (by simpa using Ne.symm h)]
  | cons a rest ih =>
    by_cases hak : a.1 = k
    · rw [List.cons_append, getKey_cons_eq _ _ _ hak, getKey_cons_eq _ _ _ hak]
    · rw [List.cons_append, getKey_cons_ne _ _ _ hak, getKey_cons_ne _ _ _ hak]
      exact ih

theorem getKey_setKey_ne {α : Type} (m : List (String × α)) (k k2 : String) (v : α)
    (h : k ≠ k2) : getKey (setKey m k2 v) k = getKey m k := by
  unfold setKey
  split
  · exact getKey_map_ne m k k2 v h
  · exact getKey_append_single_ne m k k2 v h

theorem qstringify_append_single (m : Params) (kv : String × PValue) (hm : m ≠ []) :
    qstringify (m ++ [kv]) = qstringify m ++ "&" ++ qsPair kv := by
  induction m with
  | nil => exact absurd rfl hm
  | cons a rest ih =>
    cases rest with
    | nil => rfl
    | cons b rest2 =>
      show qsPair a ++ "&" ++ qstringify ((b :: rest2) ++ [kv]) = _
      rw [ih (by simp)]
      show _ = (qsPair a ++ "&" ++ qstringify (b :: rest2)) ++ "&" ++ qsPair kv
      simp only [strAppend_assoc]

/-! ## Claim theorems -/

/-- C8 (confirmed): `getHmac(canonicalBody, secret)` is the lowercase-hex
HMAC-SHA256 digest of the UTF-8 bytes of `canonicalBody` under the raw key
bytes of `secret` (no further key encoding): the digest is 64 characters,
each a lowercase hex digit, and the computation is deterministic — signing
the same canonical string with the same secret twice yields the identical
digest. -/
theorem getHmac_is_lowercase_hex_hmac_sha256 (canonicalBody secret : String) :
    getHmac canonicalBody secret =
      bytesToHexLower (hmacSha256 (strBytes secret) (strBytes canonicalBody))
    ∧ (getHmac canonicalBody secret).length = 64
    ∧ (getHmac canonicalBody secret).toList.all isLowerHexDigit = true
    ∧ getHmac canonicalBody secret = getHmac canonicalBody secret := by
  refine ⟨rfl, ?_, bytesToHexLower_isLower _, rfl⟩
  unfold getHmac
  rw [bytesToHexLower_length, hmacSha256_length]

/-- C2 (code_bug evidence): the status classification behaves as specified
on 200–399, 400–499, 504 and the rest of 500–599, but any status outside
200–599 — here 100 and 600 — falls through the final `else` and is returned
as a plain success, contradicting the claim (and the README: a status not
between 200 and 399 always throws). -/
theorem classify_returns_success_outside_200_599 :
    classify 100 "Continue" "body" = Outcome.success 100 "Continue" "body"
    ∧ classify 600 "Out of range" "body" = Outcome.success 600 "Out of range" "body"
    ∧ classify 200 "OK" "body" = Outcome.success 200 "OK" "body"
    ∧ classify 399 "Redirect" "body" = Outcome.success 399 "Redirect" "body"
    ∧ classify 406 "Not Acceptable" "body" =
        Outcome.malformedRequest "body" "Not Acceptable" 406
    ∧ classify 504 "Gateway Timeout" "body" =
        Outcome.requestResultUnknown "body" "Gateway Timeout" 504
    ∧ classify 500 "Internal Server Error" "body" =
        Outcome.internalRequest "body" "Internal Server Error" 500
    ∧ classify 599 "Network Timeout" "body" =
        Outcome.internalRequest "body" "Network Timeout" 599 := by
  decide

/-- C6 (code_bug evidence): `Object.assign(AXIOS_DEFAULTS, axiosOptions)`
mutates the module-level shared defaults object. Constructing a client with
`{timeout: 5000}` and then a second client with no overrides leaves the
second client with an effective timeout of 5000, although the fixed
defaults say 15000 — so the effective configuration of a client is *not* the
fixed defaults overridden by its own options only. -/
theorem createRestClient_mutates_shared_defaults :
    (createRestClient
        (createRestClient initialModuleState (some [("timeout", 5000)])).2
        none).1 = [("timeout", 5000)]
    ∧ getKey AXIOS_DEFAULTS "timeout" = some 15000 := by
  decide

/-- The status classification never produces `HttpError`: every received
HTTP response, whatever its status, maps to success or one of the three
status-derived errors. -/
theorem classify_ne_httpError {β : Type} (st : Nat) (stx : String) (b : β) (c : String) :
    classify st stx b ≠ Outcome.httpError c := by
  unfold classify
  split
  · simp
  · split
    · simp
    · split <;> simp

/-- C7 (confirmed): a dispatch resolves to `HttpError c` exactly when the
credential checks passed, the built request was handed to the transport,
and the transport itself failed with cause `c` (timeout, connection
refused, DNS failure, ...) instead of producing an HTTP response — and
never for a received HTTP error status. -/
theorem c7_httpError_iff_transport_failure {β : Type} (client : RestClientOptions)
    (endpoint : Endpoint) (options : OptionsState) (now : Int)
    (transport : HttpRequest → TransportResult β) (c : String) :
    (http client endpoint options now transport).outcome = Outcome.httpError c
    ↔ (http client endpoint options now transport).sent =
        [builtRequest client endpoint options now]
      ∧ transport (builtRequest client endpoint options now) =
          TransportResult.failure c := by
  by_cases h1 : endpoint.security ≠ Security.NONE ∧ falsyOpt client.apikey = true
  · simp only [http, if_pos h1]
    simp
  · by_cases h2 : endpoint.security = Security.SIGNED ∧ falsyOpt client.apisecret = true
    · simp only [http, if_neg h1, if_pos h2]
      simp
    · simp only [http, if_neg h1, if_neg h2]
      cases htr : transport (builtRequest client endpoint options now) with
      | failure cause => simp [htr]
      | response st stx body => simp [htr, classify_ne_httpError]

/-- Witness for C7: a transport that rejects with `ETIMEDOUT` makes the
dispatch resolve to an `HttpError` carrying `ETIMEDOUT`. -/
theorem c7_witness :
    (http (β := String) {} ENDPOINTS_PING {} 0
      (fun _ => TransportResult.failure "ETIMEDOUT")).outcome =
      Outcome.httpError "ETIMEDOUT" := by
  exact (c7_httpError_iff_transport_failure {} ENDPOINTS_PING {} 0
    (fun _ => TransportResult.failure "ETIMEDOUT") "ETIMEDOUT").mpr ⟨rfl, rfl⟩

/-- C4 (confirmed): the attached authentication material is exactly
determined by the security tier. For `NONE`, the transmitted headers are
the caller headers unchanged and the transmitted parameters are the staged
caller parameters unchanged — even when credentials are configured. For
`API-KEY` (with a non-falsy key), the only header change is the
`X-MBX-APIKEY` assignment, whose value is the configured key, and the
transmitted parameters are again the staged caller parameters — no
timestamp or signature. -/
theorem c4_security_tier_determines_auth_material {β : Type} (client : RestClientOptions)
    (endpoint : Endpoint) (options : OptionsState) (now : Int)
    (transport : HttpRequest → TransportResult β) :
    (endpoint.security = Security.NONE →
      (http client endpoint options now transport).sent =
        [builtRequest client endpoint options now]
      ∧ (builtRequest client endpoint options now).headers = options.headers.getD []
      ∧ (builtRequest client endpoint options now).inputs = stagedInputs endpoint options)
    ∧ (endpoint.security = Security.APIKEY → falsyOpt client.apikey = false →
      (http client endpoint options now transport).sent =
        [builtRequest client endpoint options now]
      ∧ (builtRequest client endpoint options now).headers =
          setKey (options.headers.getD []) "X-MBX-APIKEY" (client.apikey.getD "")
      ∧ (∀ k, client.apikey = some k →
          getKey (builtRequest client endpoint options now).headers "X-MBX-APIKEY" = some k)
      ∧ (builtRequest client endpoint options now).inputs = stagedInputs endpoint options) := by
  constructor
  · intro hsec
    have h1 : ¬(endpoint.security ≠ Security.NONE ∧ falsyOpt client.apikey = true) := by
      simp [hsec]
    have h2 : ¬(endpoint.security = Security.SIGNED ∧ falsyOpt client.apisecret = true) := by
      simp [hsec]
    refine ⟨?_, ?_, ?_⟩
    · simp only [http, if_neg h1, if_neg h2]
      cases transport (builtRequest client endpoint options now) <;> rfl
    · simp [builtRequest, finalHeaders, hsec]
    · simp [builtRequest, finalInputs, hsec]
  · intro hsec hkey
    have h1 : ¬(endpoint.security ≠ Security.NONE ∧ falsyOpt client.apikey = true) := by
      simp [hkey]
    have h2 : ¬(endpoint.security = Security.SIGNED ∧ falsyOpt client.apisecret = true) := by
      simp [hsec]
    refine ⟨?_, ?_, ?_, ?_⟩
    · simp only [http, if_neg h1, if_neg h2]
      cases transport (builtRequest client endpoint options now) <;> rfl
    · simp [builtRequest, finalHeaders, hsec]
    · intro k hk2
      have hh : (builtRequest client endpoint options now).headers =
          setKey (options.headers.getD []) "X-MBX-APIKEY" k := by
        simp [builtRequest, finalHeaders, hsec, hk2]
      rw [hh, getKey_setKey_self]
    · simp [builtRequest, finalInputs, hsec]

/-- Witness for C4 at concrete inputs: a `NONE` dispatch with credentials
configured attaches no header, an `API-KEY` dispatch attaches exactly the
configured key. -/
theorem c4_witness :
    ((http (β := String) {apikey := some "key"} ENDPOINTS_PING {} 0
        (fun _ => TransportResult.response 200 "OK" "")).sent =
      [builtRequest {apikey := some "key"} ENDPOINTS_PING {} 0]
    ∧ (builtRequest {apikey := some "key"} ENDPOINTS_PING {} 0).headers = []
    ∧ (builtRequest {apikey := some "key"}
        ⟨"/v3/x", none, Security.APIKEY⟩ {} 0).headers =
      setKey [] "X-MBX-APIKEY" "key"
    ∧ getKey (builtRequest {apikey := some "key"}
        ⟨"/v3/x", none, Security.APIKEY⟩ {} 0).headers "X-MBX-APIKEY" = some "key") := by
  have hA := (c4_security_tier_determines_auth_material (β := String) {apikey := some "key"}
    ENDPOINTS_PING {} 0 (fun _ => TransportResult.response 200 "OK" "")).1 rfl
  have hB := (c4_security_tier_determines_auth_material (β := String) {apikey := some "key"}
    ⟨"/v3/x", none, Security.APIKEY⟩ {} 0 (fun _ => TransportResult.response 200 "OK" "")).2 rfl rfl
  exact ⟨hA.1, hA.2.1, hB.2.1, hB.2.2.1 "key" rfl⟩

/-- C3 (confirmed): for a SIGNED endpoint, a falsy apikey fails with the
apikey-naming `MissingCredentialsError` before any transport invocation
(`sent = []`); a present apikey with a falsy apisecret fails with the
apisecret-naming error, again with no transport invocation; with both
present, the transmitted working mapping carries `timestamp = now` and a
`signature` equal to the HMAC-SHA256, under the apisecret, of the
canonical querystring of the parameters being transmitted (the mapping
with the timestamp, before the signature key itself is added). -/
theorem c3_signed_credential_checks {β : Type} (client : RestClientOptions)
    (endpoint : Endpoint) (options : OptionsState) (now : Int)
    (transport : HttpRequest → TransportResult β)
    (hsec : endpoint.security = Security.SIGNED) :
    (falsyOpt client.apikey = true →
      (http client endpoint options now transport).outcome =
        Outcome.missingCredentials (credMsg Security.SIGNED "apikey")
      ∧ (http client endpoint options now transport).sent = [])
    ∧ (falsyOpt client.apikey = false → falsyOpt client.apisecret = true →
      (http client endpoint options now transport).outcome =
        Outcome.missingCredentials (credMsg Security.SIGNED "apisecret")
      ∧ (http client endpoint options now transport).sent = [])
    ∧ (falsyOpt client.apikey = false → falsyOpt client.apisecret = false →
      (http client endpoint options now transport).sent =
        [builtRequest client endpoint options now]
      ∧ (builtRequest client endpoint options now).inputs =
          setKey (setKey (stagedInputs endpoint options) "timestamp" (PValue.num now))
            "signature"
            (PValue.str (getHmac
              (qstringify (setKey (stagedInputs endpoint options) "timestamp" (PValue.num now)))
              (client.apisecret.getD "")))
      ∧ getKey (builtRequest client endpoint options now).inputs "timestamp" =
          some (PValue.num now)
      ∧ getKey (builtRequest client endpoint options now).inputs "signature" =
          some (PValue.str (getHmac
            (qstringify (setKey (stagedInputs endpoint options) "timestamp" (PValue.num now)))
            (client.apisecret.getD "")))) := by
  refine ⟨?_, ?_, ?_⟩
  · intro hk
    have h1 : (endpoint.security ≠ Security.NONE ∧ falsyOpt client.apikey = true) :=
      ⟨by simp [hsec], hk⟩
    simp only [http, if_pos h1]
    simp [hsec]
  · intro hk hs
    have h1 : ¬(endpoint.security ≠ Security.NONE ∧ falsyOpt client.apikey = true) := by
      simp [hk]
    have h2 : (endpoint.security = Security.SIGNED ∧ falsyOpt client.apisecret = true) :=
      ⟨hsec, hs⟩
    simp only [http, if_neg h1, if_pos h2]
    simp [hsec]
  · intro hk hs
    have h1 : ¬(endpoint.security ≠ Security.NONE ∧ falsyOpt client.apikey = true) := by
      simp [hk]
    have h2 : ¬(endpoint.security = Security.SIGNED ∧ falsyOpt client.apisecret = true) := by
      simp [hs]
    have hin : (builtRequest client endpoint options now).inputs =
        setKey (setKey (stagedInputs endpoint options) "timestamp" (PValue.num now))
          "signature"
          (PValue.str (getHmac
            (qstringify (setKey (stagedInputs endpoint options) "timestamp" (PValue.num now)))
            (client.apisecret.getD ""))) := by
      simp [builtRequest, finalInputs, hsec, signInputs]
    refine ⟨?_, hin, ?_, ?_⟩
    · simp only [http, if_neg h1, if_neg h2]
      cases transport (builtRequest client endpoint options now) <;> rfl
    · rw [hin, getKey_setKey_ne _ _ _ _ (by decide), getKey_setKey_self]
    · rw [hin, getKey_setKey_self]

/-- Witness for C3 at a concrete signed dispatch: the transmitted mapping
contains the injected timestamp and the HMAC signature. -/
theorem c3_witness :
    getKey (builtRequest {apikey := some "key", apisecret := some "secret"}
      ENDPOINTS_ORDER { data := some (DataVal.obj [("symbol", PValue.str "A")]) } 7).inputs
      "timestamp" = some (PValue.num 7)
    ∧ getKey (builtRequest {apikey := some "key", apisecret := some "secret"}
        ENDPOINTS_ORDER { data := some (DataVal.obj [("symbol", PValue.str "A")]) } 7).inputs
        "signature" =
      some (PValue.str (getHmac
        (qstringify (setKey (stagedInputs ENDPOINTS_ORDER
          { data := some (DataVal.obj [("symbol", PValue.str "A")]) })
          "timestamp" (PValue.num 7)))
        "secret")) := by
  have h := (c3_signed_credential_checks (β := String)
    {apikey := some "key", apisecret := some "secret"} ENDPOINTS_ORDER
    { data := some (DataVal.obj [("symbol", PValue.str "A")]) } 7
    (fun _ => TransportResult.response 200 "OK" "") rfl).2.2 rfl rfl
  exact ⟨h.2.2.1, h.2.2.2⟩

/-- C10 (confirmed): configuring an empty-string apikey (resp. apisecret)
produces a dispatch observably identical to leaving the credential out
entirely, and for tiers that require the credential the call fails with
the same `MissingCredentialsError`. -/
theorem c10_empty_credential_equals_absent {β : Type} (client : RestClientOptions)
    (endpoint : Endpoint) (options : OptionsState) (now : Int)
    (transport : HttpRequest → TransportResult β) :
    http { client with apikey := some "" } endpoint options now transport =
      http { client with apikey := none } endpoint options now transport
    ∧ http { client with apisecret := some "" } endpoint options now transport =
        http { client with apisecret := none } endpoint options now transport
    ∧ (endpoint.security ≠ Security.NONE →
        (http { client with apikey := some "" } endpoint options now transport).outcome =
          Outcome.missingCredentials (credMsg endpoint.security "apikey"))
    ∧ (endpoint.security = Security.SIGNED → falsyOpt client.apikey = false →
        (http { client with apisecret := some "" } endpoint options now transport).outcome =
          Outcome.missingCredentials (credMsg Security.SIGNED "apisecret")) := by
  refine ⟨?_, ?_, ?_, ?_⟩
  · obtain ⟨u, m, s⟩ := endpoint
    cases s <;> rfl
  · obtain ⟨u, m, s⟩ := endpoint
    cases s <;> rfl
  · intro hsec
    have h1 : (endpoint.security ≠ Security.NONE
        ∧ falsyOpt { client with apikey := some "" }.apikey = true) := ⟨hsec, rfl⟩
    simp only [http, if_pos h1]
  · intro hsec hk
    have hf : falsyOpt (some "" : Option String) = true := rfl
    simp [http, hsec, hk, hf]

/-- Witness for C10: an empty apikey behaves like an absent one on an
`API-KEY` endpoint, and an empty apisecret fails a SIGNED dispatch with
`MissingCredentialsError`. -/
theorem c10_witness :
    http (β := String) {apikey := some "", apisecret := some "s"}
      ⟨"/v3/x", none, Security.APIKEY⟩ {} 0
      (fun _ => TransportResult.response 200 "OK" "") =
    http {apikey := none, apisecret := some "s"}
      ⟨"/v3/x", none, Security.APIKEY⟩ {} 0
      (fun _ => TransportResult.response 200 "OK" "")
    ∧ (http (β := String) {apikey := some "k", apisecret := some ""}
        ENDPOINTS_ORDER {} 0
        (fun _ => TransportResult.response 200 "OK" "")).outcome =
      Outcome.missingCredentials (credMsg Security.SIGNED "apisecret") := by
  constructor
  · exact (c10_empty_credential_equals_absent {apikey := some "", apisecret := some "s"}
      ⟨"/v3/x", none, Security.APIKEY⟩ {} 0
      (fun _ => TransportResult.response 200 "OK" "")).1
  · exact (c10_empty_credential_equals_absent {apikey := some "k", apisecret := some ""}
      ENDPOINTS_ORDER {} 0
      (fun _ => TransportResult.response 200 "OK" "")).2.2.2 rfl rfl

/-- Counterexample to C5 as stated: after a plain GET dispatch the
caller-supplied options object is *not* unchanged — its `params` field has
been deleted and `url`, `headers`, `method` and `validateStatus` have been
assigned onto it. -/
theorem c5_counterexample_options_object_mutated :
    (http (β := String) {} ENDPOINTS_PING { params := some [("a", PValue.str "1")] } 0
      (fun _ => TransportResult.response 200 "OK" "")).post ≠
      { params := some [("a", PValue.str "1")] } := by
  decide

/-- C5 (amended): the caller params/data mappings are only read — staging
copies them into a fresh working mapping and the timestamp/signature
additions go to that copy — but the options object itself is mutated on
every dispatch: `params` and `data` are deleted up front, and on the
transmitting path `url`, `headers`, `method` and `validateStatus` are
assigned onto it, with the working copy stored back as `params` (GET) or
its serialization as `data` (other methods). -/
theorem c5_amended_staging_copies_but_options_mutated {β : Type}
    (client : RestClientOptions) (endpoint : Endpoint) (options : OptionsState)
    (now : Int) (transport : HttpRequest → TransportResult β) :
    ((endpoint.security ≠ Security.NONE ∧ falsyOpt client.apikey = true) →
      (http client endpoint options now transport).post =
        { options with data := none, params := none })
    ∧ (¬(endpoint.security ≠ Security.NONE ∧ falsyOpt client.apikey = true) →
       (endpoint.security = Security.SIGNED ∧ falsyOpt client.apisecret = true) →
      (http client endpoint options now transport).post =
        (if options.headers.isSome then
          { options with
            data := none
            params := none
            headers := some (finalHeaders client endpoint options) }
         else { options with data := none, params := none }))
    ∧ (¬(endpoint.security ≠ Security.NONE ∧ falsyOpt client.apikey = true) →
       ¬(endpoint.security = Security.SIGNED ∧ falsyOpt client.apisecret = true) →
      (http client endpoint options now transport).post =
        { headers := some (builtRequest client endpoint options now).headers,
          params := if (builtRequest client endpoint options now).method = Method.GET
            then some (builtRequest client endpoint options now).inputs else none,
          data := if (builtRequest client endpoint options now).method = Method.GET
            then none
            else some (DataVal.str
              (qstringify (builtRequest client endpoint options now).inputs)),
          url := some (builtRequest client endpoint options now).url,
          method := some (builtRequest client endpoint options now).method,
          validateStatusAll := true }) := by
  refine ⟨?_, ?_, ?_⟩
  · intro h1
    simp only [http, if_pos h1]
  · intro h1 h2
    simp only [http, if_neg h1, if_pos h2]
  · intro h1 h2
    simp only [http, if_neg h1, if_neg h2]
    cases transport (builtRequest client endpoint options now) <;>
      by_cases hh : options.headers.isSome = true <;>
        by_cases hm : (builtRequest client endpoint options now).method = Method.GET <;>
          simp [hh, hm]

/-- Witness for C5 (amended) at a concrete GET dispatch. -/
theorem c5_witness :
    (http (β := String) {} ENDPOINTS_PING { params := some [("a", PValue.str "1")] } 0
      (fun _ => TransportResult.response 200 "OK" "")).post =
      { headers := some (builtRequest {} ENDPOINTS_PING
          { params := some [("a", PValue.str "1")] } 0).headers,
        params := if (builtRequest {} ENDPOINTS_PING
            { params := some [("a", PValue.str "1")] } 0).method = Method.GET
          then some (builtRequest {} ENDPOINTS_PING
            { params := some [("a", PValue.str "1")] } 0).inputs else none,
        data := if (builtRequest {} ENDPOINTS_PING
            { params := some [("a", PValue.str "1")] } 0).method = Method.GET
          then none
          else some (DataVal.str (qstringify (builtRequest {} ENDPOINTS_PING
            { params := some [("a", PValue.str "1")] } 0).inputs)),
        url := some (builtRequest {} ENDPOINTS_PING
          { params := some [("a", PValue.str "1")] } 0).url,
        method := some (builtRequest {} ENDPOINTS_PING
          { params := some [("a", PValue.str "1")] } 0).method,
        validateStatusAll := true } := by
  exact (c5_amended_staging_copies_but_options_mutated {} ENDPOINTS_PING
    { params := some [("a", PValue.str "1")] } 0
    (fun _ => TransportResult.response 200 "OK" "")).2.2 (by decide) (by decide)

/-- String-literal fusion for the serialized signature suffix. -/
theorem strLit_amp_signature (e : String) :
    "&" ++ ("signature" ++ ("=" ++ e)) = "&signature=" ++ e := by
  cases e with
  | mk l => rfl

/-- Counterexample to C1 as stated: on a concrete signed POST, the
signature field is appended to the parameters *after* signing, so the
transmitted body is the signed string plus `&signature=...`, and the
transmitted signature is not the HMAC of the exact transmitted string. -/
theorem c1_counterexample_signature_appended_after_signing :
    ((http {apikey := some "key", apisecret := some "secret"} ENDPOINTS_ORDER
        { data := some (DataVal.obj [("symbol", PValue.str "A")]) } 1
        (fun _ => TransportResult.response 200 "OK" "")).sent.map
      (fun r => getKey r.inputs "signature") =
      [some (PValue.str (getHmac "symbol=A&timestamp=1" "secret"))])
    ∧ ((http {apikey := some "key", apisecret := some "secret"} ENDPOINTS_ORDER
        { data := some (DataVal.obj [("symbol", PValue.str "A")]) } 1
        (fun _ => TransportResult.response 200 "OK" "")).sent.map
      HttpRequest.bodyData =
      [some ("symbol=A&timestamp=1&signature=" ++ getHmac "symbol=A&timestamp=1" "secret")])
    ∧ getHmac "symbol=A&timestamp=1" "secret" ≠
        getHmac ("symbol=A&timestamp=1&signature=" ++
          getHmac "symbol=A&timestamp=1" "secret") "secret" := by
  decide

/-- C1 (amended): on a signed dispatch with both credentials present (and
caller parameters not already using the reserved keys), the millisecond
timestamp is injected immediately before signing, the signature is the
HMAC-SHA256 of the exact serialization of the parameters at signing time
(all transmitted parameters except the signature itself), and exactly one
field — the signature — is appended after signing, so the transmitted body
is the signed string followed by the signature as final field. -/
theorem c1_amended_signature_over_presignature_serialization {β : Type}
    (client : RestClientOptions) (endpoint : Endpoint) (options : OptionsState)
    (now : Int) (transport : HttpRequest → TransportResult β)
    (hsec : endpoint.security = Security.SIGNED)
    (hkey : falsyOpt client.apikey = false)
    (hsecret : falsyOpt client.apisecret = false)
    (hts : (stagedInputs endpoint options).any (fun kv => kv.1 = "timestamp") = false)
    (hsg : (stagedInputs endpoint options).any (fun kv => kv.1 = "signature") = false) :
    (http client endpoint options now transport).sent =
      [builtRequest client endpoint options now]
    ∧ (builtRequest client endpoint options now).inputs =
        (stagedInputs endpoint options ++ [("timestamp", PValue.num now)]) ++
          [("signature", PValue.str (getHmac
            (qstringify (stagedInputs endpoint options ++ [("timestamp", PValue.num now)]))
            (client.apisecret.getD "")))]
    ∧ (resolvedMethod endpoint ≠ Method.GET →
        (builtRequest client endpoint options now).bodyData =
          some (qstringify (stagedInputs endpoint options ++
              [("timestamp", PValue.num now)]) ++
            ("&signature=" ++ qsEscape (getHmac
              (qstringify (stagedInputs endpoint options ++
                [("timestamp", PValue.num now)]))
              (client.apisecret.getD ""))))) := by
  have h1 : ¬(endpoint.security ≠ Security.NONE ∧ falsyOpt client.apikey = true) := by
    simp [hkey]
  have h2 : ¬(endpoint.security = Security.SIGNED ∧ falsyOpt client.apisecret = true) := by
    simp [hsecret]
  have hbase : setKey (stagedInputs endpoint options) "timestamp" (PValue.num now) =
      stagedInputs endpoint options ++ [("timestamp", PValue.num now)] :=
    setKey_of_fresh _ _ _ hts
  have hfresh2 : (stagedInputs endpoint options ++
      [("timestamp", PValue.num now)]).any (fun kv => kv.1 = "signature") = false := by
    rw [List.any_append]
    simp [hsg]
  have hin : (builtRequest client endpoint options now).inputs =
      (stagedInputs endpoint options ++ [("timestamp", PValue.num now)]) ++
        [("signature", PValue.str (getHmac
          (qstringify (stagedInputs endpoint options ++ [("timestamp", PValue.num now)]))
          (client.apisecret.getD "")))] := by
    have hA : (builtRequest client endpoint options now).inputs =
        signInputs (stagedInputs endpoint options) now (client.apisecret.getD "") := by
      simp [builtRequest, finalInputs, hsec]
    rw [hA]
    simp only [signInputs, hbase]
    exact setKey_of_fresh _ _ _ hfresh2
  refine ⟨?_, hin, ?_⟩
  · simp only [http, if_neg h1, if_neg h2]
    cases transport (builtRequest client endpoint options now) <;> rfl
  · intro hm
    have hbody : (builtRequest client endpoint options now).bodyData =
        some (qstringify ((stagedInputs endpoint options ++
          [("timestamp", PValue.num now)]) ++
          [("signature", PValue.str (getHmac
            (qstringify (stagedInputs endpoint options ++ [("timestamp", PValue.num now)]))
            (client.apisecret.getD "")))])) := by
      simp only [HttpRequest.bodyData]
      rw [show (builtRequest client endpoint options now).method =
        resolvedMethod endpoint from rfl, if_neg hm, hin]
    rw [hbody, qstringify_append_single _ _ (by simp)]
    congr 1
    rw [show qsPair ("signature", PValue.str (getHmac
        (qstringify (stagedInputs endpoint options ++ [("timestamp", PValue.num now)]))
        (client.apisecret.getD ""))) =
      qsEscape "signature" ++ "=" ++ qsEscape (getHmac
        (qstringify (stagedInputs endpoint options ++ [("timestamp", PValue.num now)]))
        (client.apisecret.getD "")) from rfl]
    rw [show qsEscape "signature" = "signature" from by decide]
    simp only [strAppend_assoc]
    rw [strLit_amp_signature]

/-- Witness for C1 (amended) at a concrete signed POST dispatch. -/
theorem c1_witness :
    (builtRequest {apikey := some "key", apisecret := some "secret"} ENDPOINTS_ORDER
      { data := some (DataVal.obj [("symbol", PValue.str "A")]) } 1).bodyData =
      some (qstringify (stagedInputs ENDPOINTS_ORDER
          { data := some (DataVal.obj [("symbol", PValue.str "A")]) } ++
          [("timestamp", PValue.num 1)]) ++
        ("&signature=" ++ qsEscape (getHmac
          (qstringify (stagedInputs ENDPOINTS_ORDER
            { data := some (DataVal.obj [("symbol", PValue.str "A")]) } ++
            [("timestamp", PValue.num 1)]))
          "secret"))) := by
  exact (c1_amended_signature_over_presignature_serialization (β := String)
    {apikey := some "key", apisecret := some "secret"} ENDPOINTS_ORDER
    { data := some (DataVal.obj [("symbol", PValue.str "A")]) } 1
    (fun _ => TransportResult.response 200 "OK" "")
    rfl rfl rfl (by decide) (by decide)).2.2 (by decide)

/-- C9 (confirmed): a successful `getOrderBook` preserves `lastUpdateId`
and maps each `[price, quantity]` pair of `bids` and `asks`, in order and
length-preservingly, to a `price`/`quantity` record. -/
theorem c9_getOrderBook_reshapes_pairs (client : RestClientOptions) (symbol : String)
    (limit : Option Int) (now : Int)
    (transport : HttpRequest → TransportResult OrderBookRaw)
    (raw : OrderBookRaw) (stx : String)
    (h : ∀ r, transport r = TransportResult.response 200 stx raw) :
    getOrderBook client symbol limit now transport =
      some { lastUpdateId := raw.lastUpdateId
             bids := raw.bids.map (fun e => ⟨e.1, e.2⟩)
             asks := raw.asks.map (fun e => ⟨e.1, e.2⟩) }
    ∧ (reshapeOrderBook raw).bids.length = raw.bids.length
    ∧ (reshapeOrderBook raw).asks.length = raw.asks.length
    ∧ (∀ i : Nat, (reshapeOrderBook raw).bids[i]? =
        (raw.bids[i]?).map (fun e => ⟨e.1, e.2⟩))
    ∧ (∀ i : Nat, (reshapeOrderBook raw).asks[i]? =
        (raw.asks[i]?).map (fun e => ⟨e.1, e.2⟩)) := by
  refine ⟨?_, by simp [reshapeOrderBook], by simp [reshapeOrderBook], ?_, ?_⟩
  · unfold getOrderBook
    simp only [http]
    rw [h]
    simp [classify, reshapeOrderBook, ENDPOINTS_ORDERBOOK]
  · intro i
    simp [reshapeOrderBook, List.getElem?_map]
  · intro i
    simp [reshapeOrderBook, List.getElem?_map]

/-- Witness for C9 on the documented scenario payload. -/
theorem c9_witness :
    getOrderBook {} "BTC" none 0
      (fun _ => TransportResult.response 200 ""
        ⟨1, [("4.0", "431.0")], [("4.0002", "12.0")]⟩) =
      some ⟨1, [⟨"4.0", "431.0"⟩], [⟨"4.0002", "12.0"⟩]⟩ := by
  exact (c9_getOrderBook_reshapes_pairs {} "BTC" none 0
    (fun _ => TransportResult.response 200 ""
      ⟨1, [("4.0", "431.0")], [("4.0002", "12.0")]⟩)
    ⟨1, [("4.0", "431.0")], [("4.0002", "12.0")]⟩ "" (fun r => rfl)).1

end Binance
